import Mathlib

/-!
Verification of the SMART-ECU-DIAGNOSIS-AI audio diagnostic pipeline.

This file gives a shallow embedding of the backend pipeline
(`src/backend/services/inference.py`, `src/backend/main.py`,
`src/backend/audio/preprocess.py`, `src/backend/audio/convert.py`,
`src/backend/utils/vibration.py`) and of the alternative top-level endpoint
(`main.py`), and proves properties of the embedded code.

Modelling conventions:
* Python floats are modelled as exact rationals (`ℚ`); `int(x)` is truncation
  toward zero; `round(x, 4)` is round-half-even at 4 decimal places.
* `np.sin` is an opaque pure function passed as a parameter `sinf : ℚ → ℚ`
  (its transcendental values are irrelevant to every property proved here).
* `np.random.rand()` draws are modelled as an explicit stream `rng : ℕ → ℚ`,
  one value per call, so that dependence on randomness is visible.
* Fallible Python code (raising exceptions) is modelled with `Except`.
-/

namespace ECU

/-- Python `int(q)`: truncation toward zero. -/
def pyTrunc (q : ℚ) : ℤ := if q < 0 then ⌈q⌉ else ⌊q⌋

/-- Round-half-even (banker's rounding) to the nearest integer, as used by
Python's builtin `round`. -/
def roundHalfEven (q : ℚ) : ℤ :=
  let f : ℤ := ⌊q⌋
  let r : ℚ := q - f
  if r < 1/2 then f
  else if 1/2 < r then f + 1
  else if 2 ∣ f then f else f + 1

/-- Python `round(q, 4)`. -/
def round4 (q : ℚ) : ℚ := (roundHalfEven (q * 10000) : ℚ) / 10000

/-- The `CLASSES` list from `src/backend/services/inference.py`: the ordered class
catalog of the model. -/
def CLASSES : List String :=
  ["normal", "misfire", "buka_suara_mesin", "oli_rendah", "knocking",
   "pengapian_buruk", "aki_tekor", "power_steering", "serpentine_belt"]

/-- The static text of one `ISSUE_MAP` entry in `src/backend/main.py`
(severity / component / description / recommendation). -/
structure IssueInfo where
  severity : String
  component : String
  description : String
  recommendation : String
deriving DecidableEq, Repr

/-- An emitted issue: a copied `ISSUE_MAP` entry plus the `id` key that
`analyze_audio` adds (`issue["id"] = label`). -/
structure Issue where
  info : IssueInfo
  id : String
deriving DecidableEq, Repr

/-- The `ISSUE_MAP` table from `src/backend/main.py`, as an association list keyed by
class identifier (Python dict with fixed literal keys). -/
def ISSUE_MAP : List (String × IssueInfo) :=
  [("misfire",
    ⟨"high", "Sistem Pembakaran", "Terjadi misfire pada mesin",
     "Periksa busi, injector, dan sistem bahan bakar"⟩),
   ("buka_suara_mesin",
    ⟨"medium", "Celah Mesin", "Suara mesin terbuka tidak normal",
     "Periksa celah katup dan mounting mesin"⟩),
   ("oli_rendah",
    ⟨"medium", "Pelumasan", "Indikasi oli rendah atau aus",
     "Cek dan tambah oli mesin"⟩),
   ("knocking",
    ⟨"high", "Ruang Bakar", "Knocking terdeteksi",
     "Gunakan BBM oktan lebih tinggi dan cek timing pengapian"⟩),
   ("pengapian_buruk",
    ⟨"medium", "Pengapian", "Sistem pengapian tidak optimal",
     "Periksa koil dan busi"⟩)]

/-- Entrywise `np.clip(x, 1e-6, 1.0)`. -/
def clipScores (preds : List ℚ) : List ℚ :=
  preds.map (fun x => max (1/1000000) (min 1 x))

/-- The quotient `preds / np.sum(preds)` after clipping: the normalization step of
`run_inference`. -/
def normClip (preds : List ℚ) : List ℚ :=
  let c := clipScores preds
  c.map (fun x => x / c.sum)

/-- Helper for `np.argmax`: scan keeping the first index of the maximum. -/
def argmaxAux : List ℚ → ℕ → ℕ → ℚ → ℕ
  | [], _, best, _ => best
  | x :: xs, i, best, bestv =>
      if bestv < x then argmaxAux xs (i + 1) i x
      else argmaxAux xs (i + 1) best bestv

/-- Model of `np.argmax`: index of the first maximal entry (0 on the empty list). -/
def argmax : List ℚ → ℕ
  | [] => 0
  | x :: xs => argmaxAux xs 1 0 x

/-- The `(label, confidence, probabilities)` triple returned by
`run_inference`. -/
structure InfOut where
  label : String
  confidence : ℚ
  probabilities : List (String × ℚ)
deriving DecidableEq, Repr

/-- The decision part of `run_inference` in
`src/backend/services/inference.py`, from the raw model output `preds`
onward: validate the length against `CLASSES`, clip into `[1e-6, 1]`,
renormalize, take the argmax class and its confidence, and build the
probability dict with each entry rounded to 4 decimals.  A length mismatch
raises `ValueError` (modelled as `.error`). -/
def runInferenceDecision (preds : List ℚ) : Except String InfOut :=
  if preds.length = CLASSES.length then
    let p := normClip preds
    let i := argmax p
    Except.ok
      { label := CLASSES.getD i ""
        confidence := p.getD i 0
        probabilities :=
          (List.range CLASSES.length).map
            (fun j => (CLASSES.getD j "", round4 (p.getD j 0))) }
  else Except.error "Output model tidak valid"

/-- One element of the `vibration_data` list built by
`generate_vibration_data` in `src/backend/utils/vibration.py`. -/
structure VibrationPoint where
  time : ℚ
  amplitude : ℚ
  frequency : ℚ
deriving DecidableEq, Repr

/-- The function `generate_vibration_data(length)` from `src/backend/utils/vibration.py`:
`sinf` models `np.sin` and `rng i` the `np.random.rand()` draw of
iteration `i`. -/
def generate_vibration_data (sinf : ℚ → ℚ) (rng : ℕ → ℚ) (length : ℕ) :
    List VibrationPoint :=
  (List.range length).map fun (i : ℕ) =>
    { time := round4 ((i : ℚ) * (1/100))
      amplitude := sinf ((i : ℚ) * (1/10)) + rng i * (3/10)
      frequency := 50 + sinf ((i : ℚ) * (1/20)) * 40 }

/-- The JSON response assembled by `analyze_audio` in
`src/backend/main.py`. -/
structure AnalyzeResponse where
  overallHealth : ℤ
  detectedClass : String
  confidence : ℚ
  classProbabilities : List (String × ℚ)
  issues : List Issue
  vibrationData : List VibrationPoint
  timestamp : String
  mode : String
deriving DecidableEq, Repr

/-- The constant `VALID_CONFIDENCE_THRESHOLD` in `src/backend/main.py`. -/
def VALID_CONFIDENCE_THRESHOLD : ℚ := 60/100

/-- The body of `analyze_audio` in `src/backend/main.py` after the upload is
read.  `inference` is the outcome of the `run_inference` call: the
`try/except` block replaces any raised exception by
`("unknown", 0.0, {})`.  Then the confidence gate, the health logic, the
vibration data and the response dict follow the source line by line. -/
def analyze_audio (inference : Except String InfOut) (mode : String)
    (sinf : ℚ → ℚ) (rng : ℕ → ℚ) (timestamp : String) : AnalyzeResponse :=
  let r : InfOut :=
    match inference with
    | Except.ok r => r
    | Except.error _ => ⟨"unknown", 0, []⟩
  let gate : Bool :=
    (ISSUE_MAP.lookup r.label).isSome
      && decide (VALID_CONFIDENCE_THRESHOLD ≤ r.confidence)
  let label : String := if gate then r.label else "normal"
  let issues : List Issue :=
    if gate then [⟨(ISSUE_MAP.lookup r.label).getD ⟨"", "", "", ""⟩, r.label⟩]
    else []
  let overall_health : ℤ :=
    if label = "normal" then pyTrunc (90 + r.confidence * 10)
    else max 30 (pyTrunc ((1 - r.confidence) * 100))
  { overallHealth := overall_health
    detectedClass := label
    confidence := round4 r.confidence
    classProbabilities := r.probabilities
    issues := issues
    vibrationData :=
      generate_vibration_data sinf rng (if mode = "quick" then 100 else 300)
    timestamp := timestamp
    mode := mode }

/-- The backend `/api/analyze` handler viewed from the caller: it contains no
`raise` and no HTTP error path after the upload is read, so it always
returns the response with status 200, i.e. `.ok`. -/
def analyzeEndpoint (inference : Except String InfOut) (mode : String)
    (sinf : ℚ → ℚ) (rng : ℕ → ℚ) (timestamp : String) :
    Except ℕ AnalyzeResponse :=
  Except.ok (analyze_audio inference mode sinf rng timestamp)

/-- The pipeline from the raw model score vector to the response: model
output validation and decision (`run_inference`) feeding `analyze_audio`. -/
def analyzeScores (preds : List ℚ) (mode : String) (sinf : ℚ → ℚ)
    (rng : ℕ → ℚ) (timestamp : String) : AnalyzeResponse :=
  analyze_audio (runInferenceDecision preds) mode sinf rng timestamp

/-- The constant `TARGET_DURATION` in `src/backend/audio/preprocess.py` (seconds). -/
def TARGET_DURATION : ℚ := 3

/-- The audio-length fixing step of `extract_features` in
`src/backend/audio/preprocess.py` (the block under `FIX PANJANG AUDIO`):
`target_len = int(TARGET_DURATION * sr)`; a shorter buffer is padded at the
end with zeros (`np.pad(y, (0, target_len - len(y)))`), otherwise the buffer
is cut to its first `target_len` samples (`y[:target_len]`).  `y` is the
mono sample buffer and `sr` the sample rate read from the wav. -/
def fixLength (y : List ℚ) (sr : ℕ) : List ℚ :=
  let target_len : ℕ := (pyTrunc (TARGET_DURATION * sr)).toNat
  if y.length < target_len then y ++ List.replicate (target_len - y.length) 0
  else y.take target_len

/-- Outcome of one `webm_to_wav` call: what the caller gets, and which of the
two temporary paths still exist on disk afterwards. -/
structure ConvOutcome where
  result : Except String (List ℕ)
  filesLeft : List String
deriving Repr

/-- The function `webm_to_wav` in `src/backend/audio/convert.py`.  Here `ffmpegExit` is the
exit status of the `ffmpeg` subprocess and `wavBytes` the bytes it wrote on
success.  The function first writes the input bytes to a
`NamedTemporaryFile(delete=False)` (path modelled as `"in.webm"`, the
derived output path as `"in.wav"`).  `subprocess.run(..., check=True)`
raises `CalledProcessError` on a non-zero exit status, in which case control
leaves the function before the two `os.remove` calls run; on a zero exit the
wav file is read and both paths are removed. -/
def webm_to_wav (ffmpegExit : ℕ) (wavBytes : List ℕ) : ConvOutcome :=
  let files0 : List String := ["in.webm"]
  if ffmpegExit ≠ 0 then
    { result := Except.error "CalledProcessError", filesLeft := files0 }
  else
    let files1 := files0 ++ ["in.wav"]
    { result := Except.ok wavBytes
      filesLeft := (files1.erase "in.webm").erase "in.wav" }

/-- The result dict returned by the top-level `main.py` `analyze_audio`. -/
structure TopResult where
  overall_health : ℚ
  issues : List Issue
  vibration_data : List ℚ
deriving DecidableEq, Repr

/-- The endpoint `analyze_audio` in the top-level `main.py`.  Here `decode` models
`preprocess_audio(audio_bytes, content_type)`: `.error` when pydub or
librosa raise (the handler turns that into HTTP 400), `.ok (y, sr)` on
success.  The mode check, the filename check and the size check run in
source order before any decoding; `DummyModelHandler.predict` returns
`{"overall_health": 95.0, "issues": []}` and `vibration_data` is
`[0] * 128`. -/
def analyze_audio_top (mode : String) (filename : String) (audioLen : ℕ)
    (decode : Except String (List ℚ × ℕ)) : Except ℕ TopResult :=
  if ¬ (mode = "quick" ∨ mode = "deep") then Except.error 400
  else if filename = "" then Except.error 400
  else if 50 * 1024 * 1024 < audioLen then Except.error 413
  else
    match decode with
    | Except.error _ => Except.error 400
    | Except.ok _ =>
        Except.ok
          { overall_health := 95
            issues := []
            vibration_data := List.replicate 128 0 }

/-- The confidence substituted by `analyze_audio`'s `except` handler: the
returned confidence on success, `0.0` on a swallowed exception. -/
def confOf : Except String InfOut → ℚ
  | Except.ok r => r.confidence
  | Except.error _ => 0

/-- The bimodality property of a response's health score: a reported fault
scores in `[30, 40]`, a `"normal"` verdict scores in `[90, 100]`, and no
score falls strictly between 40 and 90. -/
def Bimodal (resp : AnalyzeResponse) : Prop :=
  (resp.detectedClass ≠ "normal" →
      30 ≤ resp.overallHealth ∧ resp.overallHealth ≤ 40) ∧
  (resp.detectedClass = "normal" →
      90 ≤ resp.overallHealth ∧ resp.overallHealth ≤ 100) ∧
  ¬ (40 < resp.overallHealth ∧ resp.overallHealth < 90)

/-! ### Concrete fixtures -/

/-- A concrete stand-in for `np.sin` (used only at evaluation points where
its value is irrelevant or cancels). -/
def sinf0 : ℚ → ℚ := fun _ => 0

/-- A `np.random.rand()` stream that draws 0 on every call. -/
def rng0 : ℕ → ℚ := fun _ => 0

/-- A `np.random.rand()` stream that draws 1/2 on every call. -/
def rngHalf : ℕ → ℚ := fun _ => 1/2

/-- Score vector whose max class is `knocking` (index 4) with normalized
confidence exactly 0.61. -/
def preds61 : List ℚ :=
  [39/800, 39/800, 39/800, 39/800, 61/100, 39/800, 39/800, 39/800, 39/800]

/-- Score vector whose max class is `knocking` (index 4) with normalized
confidence exactly 0.59. -/
def preds59 : List ℚ :=
  [41/800, 41/800, 41/800, 41/800, 59/100, 41/800, 41/800, 41/800, 41/800]

/-- Score vector whose max class is `knocking` (index 4) with normalized
confidence exactly 0.55. -/
def preds55 : List ℚ :=
  [45/800, 45/800, 45/800, 45/800, 55/100, 45/800, 45/800, 45/800, 45/800]

/-- Score vector whose max class is `aki_tekor` (index 6) with normalized
confidence 0.92. -/
def predsAki : List ℚ :=
  [1/100, 1/100, 1/100, 1/100, 1/100, 1/100, 92/100, 1/100, 1/100]

/-- The all-ones raw score vector (uniform after normalization). -/
def predsOnes : List ℚ := [1, 1, 1, 1, 1, 1, 1, 1, 1]

/-! ### Helper lemmas -/

theorem pyTrunc_eq_floor {q : ℚ} (h : 0 ≤ q) : pyTrunc q = ⌊q⌋ := by
  simp [pyTrunc, not_lt.mpr h]

theorem roundHalfEven_dist (q : ℚ) : |(roundHalfEven q : ℚ) - q| ≤ 1/2 := by
  have h0 : ((⌊q⌋ : ℤ) : ℚ) ≤ q := Int.floor_le q
  have h1 : q < (⌊q⌋ : ℚ) + 1 := Int.lt_floor_add_one q
  simp only [roundHalfEven]
  split_ifs with ha hb hc <;>
    (rw [abs_le]; constructor <;> push_cast <;> linarith)

theorem round4_dist (q : ℚ) : |round4 q - q| ≤ 1/20000 := by
  have hk : round4 q - q = ((roundHalfEven (q * 10000) : ℚ) - q * 10000) / 10000 := by
    simp only [round4]; ring
  rw [hk, abs_div, abs_of_pos (by norm_num : (0:ℚ) < 10000),
    div_le_iff₀ (by norm_num : (0:ℚ) < 10000)]
  calc |(roundHalfEven (q * 10000) : ℚ) - q * 10000| ≤ 1/2 := roundHalfEven_dist _
    _ = 1/20000 * 10000 := by norm_num

theorem sum_map_round4_dist (l : List ℚ) :
    |(l.map round4).sum - l.sum| ≤ (l.length : ℚ) * (1/20000) := by
  induction l with
  | nil => simp
  | cons x xs ih =>
      simp only [List.map_cons, List.sum_cons, List.length_cons]
      have h1 := round4_dist x
      calc |round4 x + (xs.map round4).sum - (x + xs.sum)|
          = |(round4 x - x) + ((xs.map round4).sum - xs.sum)| := by ring_nf
        _ ≤ |round4 x - x| + |(xs.map round4).sum - xs.sum| := abs_add _ _
        _ ≤ 1/20000 + (xs.length : ℚ) * (1/20000) := add_le_add h1 ih
        _ = ((xs.length : ℚ) + 1) * (1/20000) := by ring
        _ = (((xs.length + 1 : ℕ)) : ℚ) * (1/20000) := by push_cast; ring

theorem sum_range_getD (l : List ℚ) :
    ((List.range l.length).map (fun j => l.getD j 0)).sum = l.sum := by
  induction l with
  | nil => simp
  | cons x xs ih =>
      rw [List.length_cons, List.range_succ_eq_map, List.map_cons, List.map_map]
      simp only [List.getD_cons_zero, Function.comp_def, List.getD_cons_succ]
      rw [List.sum_cons, ih, List.sum_cons]

theorem clipScores_length (preds : List ℚ) :
    (clipScores preds).length = preds.length := by
  simp [clipScores]

theorem normClip_length (preds : List ℚ) :
    (normClip preds).length = preds.length := by
  simp [normClip, clipScores]

theorem clipScores_mem_lb {preds : List ℚ} {x : ℚ} (hx : x ∈ clipScores preds) :
    1/1000000 ≤ x := by
  simp only [clipScores, List.mem_map] at hx
  obtain ⟨y, -, rfl⟩ := hx
  exact le_max_left _ _

theorem clipScores_sum_pos {preds : List ℚ} (h : preds ≠ []) :
    0 < (clipScores preds).sum := by
  apply List.sum_pos
  · intro x hx
    exact lt_of_lt_of_le (by norm_num) (clipScores_mem_lb hx)
  · simpa [clipScores] using h

theorem normClip_sum {preds : List ℚ} (h : preds ≠ []) :
    (normClip preds).sum = 1 := by
  have hS := clipScores_sum_pos h
  simp only [normClip, div_eq_mul_inv]
  rw [List.sum_map_mul_right, List.map_id']
  exact mul_inv_cancel₀ (ne_of_gt hS)

theorem normClip_mem_nonneg {preds : List ℚ} {x : ℚ} (hx : x ∈ normClip preds) :
    0 ≤ x := by
  simp only [normClip, List.mem_map] at hx
  obtain ⟨y, hy, rfl⟩ := hx
  rcases List.eq_nil_or_concat preds with h | h
  · subst h; simp [clipScores] at hy
  · have hne : preds ≠ [] := by rintro rfl; obtain ⟨l, a, h⟩ := h; simp at h
    exact div_nonneg (le_trans (by norm_num) (clipScores_mem_lb hy))
      (clipScores_sum_pos hne).le

theorem normClip_mem_le_one {preds : List ℚ} {x : ℚ} (hx : x ∈ normClip preds) :
    x ≤ 1 := by
  simp only [normClip, List.mem_map] at hx
  obtain ⟨y, hy, rfl⟩ := hx
  have hne : preds ≠ [] := by
    rintro rfl; simp [clipScores] at hy
  have hS := clipScores_sum_pos hne
  rw [div_le_one hS]
  exact List.single_le_sum
    (fun z hz => le_trans (by norm_num) (clipScores_mem_lb hz)) _ hy

theorem normClip_getD_nonneg (preds : List ℚ) (i : ℕ) :
    0 ≤ (normClip preds).getD i 0 := by
  by_cases h : i < (normClip preds).length
  · rw [List.getD_eq_getElem _ _ h]
    exact normClip_mem_nonneg (List.getElem_mem h)
  · rw [List.getD_eq_default _ _ (le_of_not_lt h)]

theorem normClip_getD_le_one (preds : List ℚ) (i : ℕ) :
    (normClip preds).getD i 0 ≤ 1 := by
  by_cases h : i < (normClip preds).length
  · rw [List.getD_eq_getElem _ _ h]
    exact normClip_mem_le_one (List.getElem_mem h)
  · rw [List.getD_eq_default _ _ (le_of_not_lt h)]
    norm_num

theorem generate_vibration_data_length (sinf : ℚ → ℚ) (rng : ℕ → ℚ) (n : ℕ) :
    (generate_vibration_data sinf rng n).length = n := by
  simp [generate_vibration_data]

theorem lookup_normal_none : ISSUE_MAP.lookup "normal" = none := by decide

theorem lookup_isSome_ne_normal {s : String}
    (h : (ISSUE_MAP.lookup s).isSome) : s ≠ "normal" := by
  intro hs
  rw [hs, lookup_normal_none] at h
  simp at h

theorem runInferenceDecision_eq (preds : List ℚ) (h : preds.length = 9) :
    runInferenceDecision preds =
      Except.ok
        { label := CLASSES.getD (argmax (normClip preds)) ""
          confidence := (normClip preds).getD (argmax (normClip preds)) 0
          probabilities :=
            (List.range 9).map
              (fun j => (CLASSES.getD j "", round4 ((normClip preds).getD j 0))) } := by
  have hc : CLASSES.length = 9 := rfl
  simp [runInferenceDecision, h, hc]

theorem runInferenceDecision_err (preds : List ℚ) (h : preds.length ≠ 9) :
    runInferenceDecision preds = Except.error "Output model tidak valid" := by
  have hc : CLASSES.length = 9 := rfl
  simp [runInferenceDecision, hc, h]

theorem round4_zero : round4 0 = 0 := by
  norm_num [round4, roundHalfEven]

theorem analyze_audio_error_eq (e : String) (mode : String) (sinf : ℚ → ℚ)
    (rng : ℕ → ℚ) (ts : String) :
    analyze_audio (Except.error e) mode sinf rng ts =
      { overallHealth := 90
        detectedClass := "normal"
        confidence := 0
        classProbabilities := []
        issues := []
        vibrationData :=
          generate_vibration_data sinf rng (if mode = "quick" then 100 else 300)
        timestamp := ts
        mode := mode } := by
  have h1 : ISSUE_MAP.lookup "unknown" = none := by decide
  have h2 : ¬ (VALID_CONFIDENCE_THRESHOLD ≤ (0:ℚ)) := by
    norm_num [VALID_CONFIDENCE_THRESHOLD]
  have h4 : pyTrunc 90 = 90 := by
    norm_num [pyTrunc]
  simp [analyze_audio, h1, h2, h4, round4_zero]

theorem analyze_audio_gate_pos (r : InfOut) (info : IssueInfo) (mode : String)
    (sinf : ℚ → ℚ) (rng : ℕ → ℚ) (ts : String)
    (h1 : ISSUE_MAP.lookup r.label = some info)
    (h2 : VALID_CONFIDENCE_THRESHOLD ≤ r.confidence) :
    analyze_audio (Except.ok r) mode sinf rng ts =
      { overallHealth := max 30 (pyTrunc ((1 - r.confidence) * 100))
        detectedClass := r.label
        confidence := round4 r.confidence
        classProbabilities := r.probabilities
        issues := [⟨info, r.label⟩]
        vibrationData :=
          generate_vibration_data sinf rng (if mode = "quick" then 100 else 300)
        timestamp := ts
        mode := mode } := by
  have hne : r.label ≠ "normal" :=
    lookup_isSome_ne_normal (by rw [h1]; rfl)
  simp [analyze_audio, h1, h2, hne]

theorem analyze_audio_gate_neg (r : InfOut) (mode : String)
    (sinf : ℚ → ℚ) (rng : ℕ → ℚ) (ts : String)
    (h : ISSUE_MAP.lookup r.label = none
        ∨ r.confidence < VALID_CONFIDENCE_THRESHOLD) :
    analyze_audio (Except.ok r) mode sinf rng ts =
      { overallHealth := pyTrunc (90 + r.confidence * 10)
        detectedClass := "normal"
        confidence := round4 r.confidence
        classProbabilities := r.probabilities
        issues := []
        vibrationData :=
          generate_vibration_data sinf rng (if mode = "quick" then 100 else 300)
        timestamp := ts
        mode := mode } := by
  rcases h with h | h
  · simp [analyze_audio, h]
  · have h2 : ¬ (VALID_CONFIDENCE_THRESHOLD ≤ r.confidence) := not_le.mpr h
    simp [analyze_audio, h2]

/-- Combined form of the confidence gate on an arbitrary
`run_inference` result. -/
theorem analyze_audio_gate_cases (r : InfOut) (mode : String) (sinf : ℚ → ℚ)
    (rng : ℕ → ℚ) (ts : String) :
    ((analyze_audio (Except.ok r) mode sinf rng ts).detectedClass,
      (analyze_audio (Except.ok r) mode sinf rng ts).issues) =
      if (ISSUE_MAP.lookup r.label).isSome
          ∧ VALID_CONFIDENCE_THRESHOLD ≤ r.confidence then
        (r.label, [⟨(ISSUE_MAP.lookup r.label).getD ⟨"", "", "", ""⟩, r.label⟩])
      else ("normal", []) := by
  split_ifs with hc
  · obtain ⟨h1, h2⟩ := hc
    obtain ⟨info, hinfo⟩ := Option.isSome_iff_exists.mp h1
    rw [analyze_audio_gate_pos r info mode sinf rng ts hinfo h2, hinfo]
    rfl
  · have h : ISSUE_MAP.lookup r.label = none
        ∨ r.confidence < VALID_CONFIDENCE_THRESHOLD := by
      rcases not_and_or.mp hc with h | h
      · exact Or.inl (Option.not_isSome_iff_eq_none.mp h)
      · exact Or.inr (not_le.mp h)
    rw [analyze_audio_gate_neg r mode sinf rng ts h]

/-! ### Claims -/

/-- C5: after the length-fixing step of `extract_features`, every PCM buffer
has length exactly `target_duration × sample_rate = 3 * sr` samples: the
kept part is the initial prefix of the buffer (truncation drops the tail
beyond the target length) and a shorter buffer is padded with trailing
zero-amplitude samples. -/
theorem fixLength_spec (y : List ℚ) (sr : ℕ) :
    (fixLength y sr).length = 3 * sr ∧
    fixLength y sr = y.take (3 * sr) ++ List.replicate (3 * sr - y.length) 0 := by
  have hq : TARGET_DURATION * (sr : ℚ) = ((3 * sr : ℕ) : ℚ) := by
    push_cast [TARGET_DURATION]; ring
  have htl : (pyTrunc (TARGET_DURATION * (sr : ℚ))).toNat = 3 * sr := by
    rw [hq, pyTrunc_eq_floor (by positivity), Int.floor_natCast]
    exact Int.toNat_natCast _
  simp only [fixLength, htl]
  by_cases h : y.length < 3 * sr
  · rw [if_pos h, List.take_of_length_le (le_of_lt h)]
    refine ⟨?_, rfl⟩
    simp [Nat.add_sub_cancel' (le_of_lt h)]
  · rw [if_neg h]
    push_neg at h
    refine ⟨?_, ?_⟩
    · simp [List.length_take, Nat.min_eq_left h]
    · rw [Nat.sub_eq_zero_of_le h]
      simp

/-- C7: on a failing `ffmpeg` run (non-zero exit status), `webm_to_wav`
propagates the failure as an exception (`CalledProcessError` from
`check=True`), but the exception escapes before the `os.remove` calls, so
the temporary input file is left on disk; only the successful path removes
both temporary files. -/
theorem webm_to_wav_cleanup :
    (webm_to_wav 1 []).result = Except.error "CalledProcessError" ∧
    (webm_to_wav 1 []).filesLeft = ["in.webm"] ∧
    (webm_to_wav 0 []).result = Except.ok [] ∧
    (webm_to_wav 0 []).filesLeft = [] := by
  refine ⟨rfl, rfl, rfl, rfl⟩

/-- C8 amended: the decision fields of the response (health, detected
class, confidence, class probabilities, issues) are a pure function of the
score vector and the mode, independent of the random draws, the `sin`
evaluations and the timestamp; the vibration series has a mode-determined
length but its amplitudes depend on fresh `np.random.rand()` draws, so the
full response is not bit-identical across runs. -/
theorem decision_independent_of_randomness (preds : List ℚ) (mode : String)
    (sinf sinf' : ℚ → ℚ) (rng rng' : ℕ → ℚ) (ts ts' : String) :
    (analyzeScores preds mode sinf rng ts).overallHealth
        = (analyzeScores preds mode sinf' rng' ts').overallHealth ∧
    (analyzeScores preds mode sinf rng ts).detectedClass
        = (analyzeScores preds mode sinf' rng' ts').detectedClass ∧
    (analyzeScores preds mode sinf rng ts).confidence
        = (analyzeScores preds mode sinf' rng' ts').confidence ∧
    (analyzeScores preds mode sinf rng ts).classProbabilities
        = (analyzeScores preds mode sinf' rng' ts').classProbabilities ∧
    (analyzeScores preds mode sinf rng ts).issues
        = (analyzeScores preds mode sinf' rng' ts').issues ∧
    (analyzeScores preds mode sinf rng ts).vibrationData.length
        = (analyzeScores preds mode sinf' rng' ts').vibrationData.length := by
  refine ⟨rfl, rfl, rfl, rfl, rfl, ?_⟩
  simp [analyzeScores, analyze_audio, generate_vibration_data_length]

/-- C8 counterexample: running the pipeline twice on the identical score
vector and mode with different `np.random.rand()` draws yields different
results (the vibration amplitudes differ), so the full `DiagnosticResult`
is not a pure function of (score vector, mode). -/
theorem vibration_randomness_counterexample :
    analyzeScores preds61 "quick" sinf0 rng0 "t"
      ≠ analyzeScores preds61 "quick" sinf0 rngHalf "t" := by
  intro h
  have h2 := congrArg (fun r => r.vibrationData.map (fun p => p.amplitude)) h
  simp only [analyzeScores, analyze_audio, generate_vibration_data,
    List.map_map] at h2
  rw [List.map_eq_map_iff] at h2
  have h0 := h2 0 (by simp)
  simp [sinf0, rng0, rngHalf] at h0

/-- C2: confidence gate — for every valid-length score vector, if the
maximum-score class (after clipping and normalization) is a key of
`ISSUE_MAP` and its confidence is at least the 0.60 threshold, the detected
class is that class and the issues list holds exactly the one entry looked
up verbatim from the static map, tagged with the class identifier;
otherwise the detected class is overridden to `"normal"` and the issues
list is empty. -/
theorem confidence_gate_spec (preds : List ℚ) (mode : String) (sinf : ℚ → ℚ)
    (rng : ℕ → ℚ) (ts : String) (hlen : preds.length = 9) :
    ((analyzeScores preds mode sinf rng ts).detectedClass,
      (analyzeScores preds mode sinf rng ts).issues) =
      if (ISSUE_MAP.lookup (CLASSES.getD (argmax (normClip preds)) "")).isSome
          ∧ VALID_CONFIDENCE_THRESHOLD
              ≤ (normClip preds).getD (argmax (normClip preds)) 0 then
        (CLASSES.getD (argmax (normClip preds)) "",
          [⟨(ISSUE_MAP.lookup (CLASSES.getD (argmax (normClip preds)) "")).getD
              ⟨"", "", "", ""⟩,
            CLASSES.getD (argmax (normClip preds)) ""⟩])
      else ("normal", []) := by
  rw [analyzeScores, runInferenceDecision_eq preds hlen]
  exact analyze_audio_gate_cases
    ⟨CLASSES.getD (argmax (normClip preds)) "",
     (normClip preds).getD (argmax (normClip preds)) 0,
     (List.range 9).map
       (fun j => (CLASSES.getD j "", round4 ((normClip preds).getD j 0)))⟩
    mode sinf rng ts

/-- C9: the class catalog has nine classes while the static issue map has
only five; whenever the maximum-score class is `aki_tekor`,
`power_steering` or `serpentine_belt`, the detected class is overridden to
`"normal"` with no issues and an overall health of at least 90, no matter
how high the confidence. -/
theorem unmapped_classes_normal (preds : List ℚ) (mode : String)
    (sinf : ℚ → ℚ) (rng : ℕ → ℚ) (ts : String) (hlen : preds.length = 9)
    (hcls : CLASSES.getD (argmax (normClip preds)) "" = "aki_tekor"
        ∨ CLASSES.getD (argmax (normClip preds)) "" = "power_steering"
        ∨ CLASSES.getD (argmax (normClip preds)) "" = "serpentine_belt") :
    CLASSES.length = 9 ∧ ISSUE_MAP.length = 5 ∧
    (analyzeScores preds mode sinf rng ts).detectedClass = "normal" ∧
    (analyzeScores preds mode sinf rng ts).issues = [] ∧
    90 ≤ (analyzeScores preds mode sinf rng ts).overallHealth := by
  have hnone :
      ISSUE_MAP.lookup (CLASSES.getD (argmax (normClip preds)) "") = none := by
    rcases hcls with h | h | h <;> rw [h] <;> decide
  rw [analyzeScores, runInferenceDecision_eq preds hlen,
    analyze_audio_gate_neg _ mode sinf rng ts (Or.inl hnone)]
  refine ⟨rfl, rfl, rfl, rfl, ?_⟩
  have hc0 := normClip_getD_nonneg preds (argmax (normClip preds))
  have h90 : (0:ℚ)
      ≤ 90 + (normClip preds).getD (argmax (normClip preds)) 0 * 10 := by
    linarith
  show 90 ≤ pyTrunc (90 + (normClip preds).getD (argmax (normClip preds)) 0 * 10)
  rw [pyTrunc_eq_floor h90]
  exact Int.le_floor.mpr (by push_cast; linarith)

/-- A response whose detected class is a fault and whose health lies in
`[30, 40]` satisfies the bimodality property. -/
theorem bimodal_of_fault {resp : AnalyzeResponse}
    (hdc : resp.detectedClass ≠ "normal")
    (hlo : 30 ≤ resp.overallHealth) (hhi : resp.overallHealth ≤ 40) :
    Bimodal resp := by
  refine ⟨fun _ => ⟨hlo, hhi⟩, fun h => absurd h hdc, ?_⟩
  rintro ⟨hgt, -⟩
  exact absurd (lt_of_lt_of_le hgt hhi) (lt_irrefl _)

/-- A response whose detected class is `"normal"` and whose health lies in
`[90, 100]` satisfies the bimodality property. -/
theorem bimodal_of_normal {resp : AnalyzeResponse}
    (hdc : resp.detectedClass = "normal")
    (hlo : 90 ≤ resp.overallHealth) (hhi : resp.overallHealth ≤ 100) :
    Bimodal resp := by
  refine ⟨fun h => absurd hdc h, fun _ => ⟨hlo, hhi⟩, ?_⟩
  rintro ⟨-, hlt⟩
  exact absurd hlo (not_le.mpr hlt)

/-- The gate-failed (`"normal"`) health value lies in `[90, 100]` for any
confidence in `[0, 1]`. -/
theorem normal_health_bounds {c : ℚ} (hc0 : 0 ≤ c) (hc1 : c ≤ 1) :
    90 ≤ pyTrunc (90 + c * 10) ∧ pyTrunc (90 + c * 10) ≤ 100 := by
  have hfl : (0:ℚ) ≤ 90 + c * 10 := by linarith
  rw [pyTrunc_eq_floor hfl]
  constructor
  · exact Int.le_floor.mpr (by push_cast; linarith)
  · exact Int.floor_le_iff.mpr (by push_cast; linarith)

/-- The gate-passed (fault) health value lies in `[30, 40]` for any
confidence in `[0.6, 1]`. -/
theorem fault_health_bounds {c : ℚ} (hc6 : 60/100 ≤ c) (hc1 : c ≤ 1) :
    30 ≤ max 30 (pyTrunc ((1 - c) * 100)) ∧
    max 30 (pyTrunc ((1 - c) * 100)) ≤ 40 := by
  have hfl : (0:ℚ) ≤ (1 - c) * 100 := by nlinarith
  refine ⟨le_max_left _ _, ?_⟩
  rw [pyTrunc_eq_floor hfl]
  refine max_le (by norm_num) (Int.floor_le_iff.mpr ?_)
  push_cast
  nlinarith

/-- Bimodality of the response on an arbitrary successful `run_inference`
result with confidence in `[0, 1]`. -/
theorem bimodal_ok (r : InfOut) (mode : String) (sinf : ℚ → ℚ)
    (rng : ℕ → ℚ) (ts : String)
    (hc0 : 0 ≤ r.confidence) (hc1 : r.confidence ≤ 1) :
    Bimodal (analyze_audio (Except.ok r) mode sinf rng ts) := by
  by_cases h1 : (ISSUE_MAP.lookup r.label).isSome
  · obtain ⟨info, hinfo⟩ := Option.isSome_iff_exists.mp h1
    by_cases h2 : VALID_CONFIDENCE_THRESHOLD ≤ r.confidence
    · rw [analyze_audio_gate_pos r info mode sinf rng ts hinfo h2]
      exact bimodal_of_fault (lookup_isSome_ne_normal h1)
        (fault_health_bounds h2 hc1).1 (fault_health_bounds h2 hc1).2
    · rw [analyze_audio_gate_neg r mode sinf rng ts (Or.inr (not_le.mp h2))]
      exact bimodal_of_normal rfl
        (normal_health_bounds hc0 hc1).1 (normal_health_bounds hc0 hc1).2
  · rw [analyze_audio_gate_neg r mode sinf rng ts
        (Or.inl (Option.not_isSome_iff_eq_none.mp h1))]
    exact bimodal_of_normal rfl
      (normal_health_bounds hc0 hc1).1 (normal_health_bounds hc0 hc1).2

/-- C10: the health score is bimodal — a reported fault (detected class not
`"normal"`) always scores in `[30, 40]`, a `"normal"` verdict always scores
in `[90, 100]`, and no response carries a score strictly between 40 and 90;
this holds both for responses built from a model score vector and for the
fallback response after a swallowed inference error. -/
theorem health_bimodal (preds : List ℚ) (e : String) (mode : String)
    (sinf : ℚ → ℚ) (rng : ℕ → ℚ) (ts : String) :
    Bimodal (analyzeScores preds mode sinf rng ts) ∧
    Bimodal (analyze_audio (Except.error e) mode sinf rng ts) := by
  have herr : ∀ e' : String,
      Bimodal (analyze_audio (Except.error e') mode sinf rng ts) := by
    intro e'
    rw [analyze_audio_error_eq]
    exact bimodal_of_normal rfl (by norm_num) (by norm_num)
  constructor
  · by_cases hlen : preds.length = 9
    · rw [analyzeScores, runInferenceDecision_eq preds hlen]
      exact bimodal_ok _ mode sinf rng ts
        (normClip_getD_nonneg preds (argmax (normClip preds)))
        (normClip_getD_le_one preds (argmax (normClip preds)))
    · rw [analyzeScores, runInferenceDecision_err preds hlen]
      exact herr _
  · exact herr e

/-- The response's `classProbabilities` field is always the probability
dict built by `run_inference`, regardless of the confidence gate. -/
theorem analyze_audio_probabilities (r : InfOut) (mode : String)
    (sinf : ℚ → ℚ) (rng : ℕ → ℚ) (ts : String) :
    (analyze_audio (Except.ok r) mode sinf rng ts).classProbabilities
      = r.probabilities := rfl

/-- C3 amended: after clipping into `[1e-6, 1]` and renormalization the
probability vector sums to exactly 1, but the response carries each
probability rounded to 4 decimal places (`round(p, 4)`), so the mapping
returned to the caller sums to 1 only within `9 × 1/20000 = 4.5e-4`, not
within `1e-6`. -/
theorem class_probabilities_sum (preds : List ℚ) (mode : String)
    (sinf : ℚ → ℚ) (rng : ℕ → ℚ) (ts : String) (hlen : preds.length = 9) :
    (normClip preds).sum = 1 ∧
    |(((analyzeScores preds mode sinf rng ts).classProbabilities.map
        Prod.snd).sum) - 1| ≤ 9/20000 := by
  have hne : preds ≠ [] := by
    intro h; rw [h] at hlen; simp at hlen
  refine ⟨normClip_sum hne, ?_⟩
  rw [analyzeScores, runInferenceDecision_eq preds hlen,
    analyze_audio_probabilities, List.map_map]
  have hcomp : (Prod.snd ∘ fun j =>
      ((CLASSES.getD j "", round4 ((normClip preds).getD j 0)) : String × ℚ))
      = fun j => round4 ((normClip preds).getD j 0) := rfl
  rw [hcomp]
  have hp9 : (normClip preds).length = 9 := by rw [normClip_length, hlen]
  have hsum1 : ((List.range 9).map (fun j => (normClip preds).getD j 0)).sum
      = 1 := by
    rw [← hp9, sum_range_getD]
    exact normClip_sum hne
  have key := sum_map_round4_dist
    ((List.range 9).map (fun j => (normClip preds).getD j 0))
  rw [List.map_map, hsum1] at key
  have hcomp2 : (round4 ∘ fun j => (normClip preds).getD j 0)
      = fun j => round4 ((normClip preds).getD j 0) := rfl
  rw [hcomp2] at key
  have hl9 : ((((List.range 9).map
      (fun j => (normClip preds).getD j 0)).length : ℕ) : ℚ) = 9 := by simp
  rw [hl9] at key
  calc |((List.range 9).map (fun j => round4 ((normClip preds).getD j 0))).sum - 1|
      ≤ (9:ℚ) * (1/20000) := key
    _ = 9/20000 := by norm_num

/-- C3 witness instance at the 0.61-knocking score vector. -/
theorem class_probabilities_sum_witness :
    preds61.length = 9 ∧ (normClip preds61).sum = 1 ∧
    |(((analyzeScores preds61 "quick" sinf0 rng0 "t").classProbabilities.map
        Prod.snd).sum) - 1| ≤ 9/20000 := by
  have h := class_probabilities_sum preds61 "quick" sinf0 rng0 "t" rfl
  exact ⟨rfl, h.1, h.2⟩

/-- C3 counterexample: on the all-ones score vector each normalized
probability is `1/9`, which rounds at 4 decimals to `0.1111`; the returned
mapping sums to `0.9999`, off from 1 by `1e-4 > 1e-6`, so the response's
`class_probabilities` does not sum to 1 within the claimed `1e-6`
tolerance. -/
theorem probabilities_tolerance_counterexample :
    ¬ |(((analyzeScores predsOnes "quick" sinf0 rng0 "t").classProbabilities.map
        Prod.snd).sum) - 1| ≤ 1/1000000 := by
  have hnc : normClip predsOnes
      = [1/9, 1/9, 1/9, 1/9, 1/9, 1/9, 1/9, 1/9, 1/9] := by
    norm_num [normClip, clipScores, predsOnes, min_def, max_def]
  have hr4 : round4 (1/9 : ℚ) = 1111/10000 := by
    norm_num [round4, roundHalfEven]
  have hsum : (((analyzeScores predsOnes "quick" sinf0 rng0 "t").classProbabilities.map
      Prod.snd).sum) = 9999/10000 := by
    rw [analyzeScores, runInferenceDecision_eq predsOnes rfl,
      analyze_audio_probabilities]
    rw [show (List.range 9) = [0, 1, 2, 3, 4, 5, 6, 7, 8] from rfl, hnc]
    norm_num [hr4]
  rw [hsum, abs_sub_comm,
    abs_of_nonneg (show (0:ℚ) ≤ 1 - 9999/10000 by norm_num)]
  norm_num

/-- C4 amended: for every confidence in `[0, 1]` the overall health is an
integer in `[0, 100]`; when the final label is `"normal"` it equals
`⌊90 + confidence × 10⌋` (Python `int()` truncates the fractional part),
and otherwise it equals `max(30, ⌊(1 − confidence) × 100⌋)`; the endpoints
90 (confidence 0, normal) and 100 (confidence 1) are exact. -/
theorem health_score_spec (inf : Except String InfOut) (mode : String)
    (sinf : ℚ → ℚ) (rng : ℕ → ℚ) (ts : String)
    (h0 : 0 ≤ confOf inf) (h1 : confOf inf ≤ 1) :
    0 ≤ (analyze_audio inf mode sinf rng ts).overallHealth ∧
    (analyze_audio inf mode sinf rng ts).overallHealth ≤ 100 ∧
    ((analyze_audio inf mode sinf rng ts).detectedClass = "normal" →
      (analyze_audio inf mode sinf rng ts).overallHealth
        = ⌊90 + confOf inf * 10⌋) ∧
    ((analyze_audio inf mode sinf rng ts).detectedClass ≠ "normal" →
      (analyze_audio inf mode sinf rng ts).overallHealth
        = max 30 ⌊(1 - confOf inf) * 100⌋) := by
  cases inf with
  | error e =>
      rw [analyze_audio_error_eq]
      simp only [confOf]
      refine ⟨by norm_num, by norm_num, fun _ => ?_, fun h => absurd rfl h⟩
      norm_num
  | ok r =>
      simp only [confOf] at h0 h1 ⊢
      by_cases hl : (ISSUE_MAP.lookup r.label).isSome
      · obtain ⟨info, hinfo⟩ := Option.isSome_iff_exists.mp hl
        by_cases hc : VALID_CONFIDENCE_THRESHOLD ≤ r.confidence
        · rw [analyze_audio_gate_pos r info mode sinf rng ts hinfo hc]
          have hb := fault_health_bounds hc h1
          have hfl : (0:ℚ) ≤ (1 - r.confidence) * 100 := by nlinarith
          refine ⟨le_trans (by norm_num) hb.1, le_trans hb.2 (by norm_num),
            ?_, fun _ => ?_⟩
          · intro hdc; exact absurd hdc (lookup_isSome_ne_normal hl)
          · show max 30 (pyTrunc ((1 - r.confidence) * 100))
              = max 30 ⌊(1 - r.confidence) * 100⌋
            rw [pyTrunc_eq_floor hfl]
        · rw [analyze_audio_gate_neg r mode sinf rng ts (Or.inr (not_le.mp hc))]
          have hb := normal_health_bounds h0 h1
          have hfl : (0:ℚ) ≤ 90 + r.confidence * 10 := by linarith
          exact ⟨le_trans (by norm_num) hb.1, le_trans hb.2 (by norm_num),
            fun _ => pyTrunc_eq_floor hfl, fun h => absurd rfl h⟩
      · rw [analyze_audio_gate_neg r mode sinf rng ts
            (Or.inl (Option.not_isSome_iff_eq_none.mp hl))]
        have hb := normal_health_bounds h0 h1
        have hfl : (0:ℚ) ≤ 90 + r.confidence * 10 := by linarith
        exact ⟨le_trans (by norm_num) hb.1, le_trans hb.2 (by norm_num),
          fun _ => pyTrunc_eq_floor hfl, fun h => absurd rfl h⟩

/-- C4 witness instance at confidence 0.55 on a gate-failed result. -/
theorem health_score_spec_witness :
    0 ≤ (analyze_audio (Except.ok ⟨"knocking", 55/100, []⟩)
        "quick" sinf0 rng0 "t").overallHealth ∧
    (analyze_audio (Except.ok ⟨"knocking", 55/100, []⟩)
        "quick" sinf0 rng0 "t").overallHealth ≤ 100 := by
  have h := health_score_spec (Except.ok ⟨"knocking", 55/100, []⟩)
    "quick" sinf0 rng0 "t" (by norm_num [confOf]) (by norm_num [confOf])
  exact ⟨h.1, h.2.1⟩

/-- C4 counterexample: at a score vector with max class `knocking` at
confidence 0.55 the gate fails, the final label is `"normal"` and the code
returns `int(90 + 0.55 × 10) = 95`, while the claimed equality
`overall_health = 90 + confidence × 10` demands 95.5 — the claim's exact
formula fails because `int()` truncation is applied. -/
theorem health_formula_counterexample :
    (analyzeScores preds55 "quick" sinf0 rng0 "t").detectedClass = "normal" ∧
    (analyzeScores preds55 "quick" sinf0 rng0 "t").confidence = 55/100 ∧
    (analyzeScores preds55 "quick" sinf0 rng0 "t").overallHealth = 95 ∧
    ((analyzeScores preds55 "quick" sinf0 rng0 "t").overallHealth : ℚ)
      ≠ 90 + (analyzeScores preds55 "quick" sinf0 rng0 "t").confidence * 10 := by
  have hl : ISSUE_MAP.lookup "knocking" =
      some ⟨"high", "Ruang Bakar", "Knocking terdeteksi",
        "Gunakan BBM oktan lebih tinggi dan cek timing pengapian"⟩ := by decide
  have hdc : (analyzeScores preds55 "quick" sinf0 rng0 "t").detectedClass
      = "normal" := by
    norm_num [analyzeScores, analyze_audio, runInferenceDecision, argmax,
      argmaxAux, normClip, clipScores, preds55, min_def, max_def, CLASSES, hl,
      VALID_CONFIDENCE_THRESHOLD]
  have hcf : (analyzeScores preds55 "quick" sinf0 rng0 "t").confidence
      = 55/100 := by
    norm_num [analyzeScores, analyze_audio, runInferenceDecision, argmax,
      argmaxAux, normClip, clipScores, preds55, min_def, max_def, CLASSES, hl,
      VALID_CONFIDENCE_THRESHOLD, round4, roundHalfEven]
  have hoh : (analyzeScores preds55 "quick" sinf0 rng0 "t").overallHealth
      = 95 := by
    norm_num [analyzeScores, analyze_audio, runInferenceDecision, argmax,
      argmaxAux, normClip, clipScores, preds55, min_def, max_def, CLASSES, hl,
      VALID_CONFIDENCE_THRESHOLD, pyTrunc]
  refine ⟨hdc, hcf, hoh, ?_⟩
  rw [hoh, hcf]
  norm_num

/-- C1 amended: `run_inference` does raise on a model-output length
mismatch, but the backend handler catches every inference exception
(decode failures included), logs it, substitutes
`("unknown", 0.0, {})`, and returns a successful 200 response with
detected class `"normal"`, health 90, no issues and empty probabilities —
the error is never surfaced to the caller. -/
theorem error_fallback_response (e : String) (mode : String) (sinf : ℚ → ℚ)
    (rng : ℕ → ℚ) (ts : String) (preds : List ℚ) (hlen : preds.length ≠ 9) :
    runInferenceDecision preds = Except.error "Output model tidak valid" ∧
    analyzeEndpoint (Except.error e) mode sinf rng ts =
      Except.ok
        { overallHealth := 90
          detectedClass := "normal"
          confidence := 0
          classProbabilities := []
          issues := []
          vibrationData :=
            generate_vibration_data sinf rng (if mode = "quick" then 100 else 300)
          timestamp := ts
          mode := mode } :=
  ⟨runInferenceDecision_err preds hlen,
   congrArg Except.ok (analyze_audio_error_eq e mode sinf rng ts)⟩

/-- C1 witness instance: the empty model output is invalid, and a decode
error still produces a 200 response. -/
theorem error_fallback_response_witness :
    ([] : List ℚ).length ≠ 9 ∧
    runInferenceDecision [] = Except.error "Output model tidak valid" :=
  ⟨by decide,
   (error_fallback_response "DecodeError" "deep" sinf0 rng0 "t" []
     (by decide)).1⟩

/-- C1 counterexample: on a decode failure the backend endpoint returns a
successful (`.ok`, HTTP 200) diagnostic result — detected class
`"normal"`, no issues, health 90 — instead of reporting the failure to the
caller. -/
theorem error_swallowed_counterexample :
    analyzeEndpoint (Except.error "DecodeError") "quick" sinf0 rng0 "t"
      = Except.ok
          (analyze_audio (Except.error "DecodeError") "quick" sinf0 rng0 "t") ∧
    (analyze_audio (Except.error "DecodeError") "quick" sinf0 rng0 "t").detectedClass
      = "normal" ∧
    (analyze_audio (Except.error "DecodeError") "quick" sinf0 rng0 "t").issues
      = [] ∧
    (analyze_audio (Except.error "DecodeError") "quick" sinf0 rng0 "t").overallHealth
      = 90 := by
  refine ⟨rfl, ?_, ?_, ?_⟩ <;> rw [analyze_audio_error_eq]

/-- C6 amended: the top-level `main.py` endpoint rejects any mode outside
`{"quick", "deep"}` with HTTP 400 before reading or decoding the payload
(the result does not depend on the decode outcome), but the backend
`src/backend/main.py` endpoint performs no mode validation at all: it
returns a successful response echoing the invalid mode, with a 300-point
vibration series (every non-`"quick"` mode is treated as deep). -/
theorem mode_validation_split (mode : String)
    (hmode : ¬ (mode = "quick" ∨ mode = "deep")) (filename : String)
    (audioLen : ℕ) (decode : Except String (List ℚ × ℕ))
    (inf : Except String InfOut) (sinf : ℚ → ℚ) (rng : ℕ → ℚ) (ts : String) :
    analyze_audio_top mode filename audioLen decode = Except.error 400 ∧
    analyzeEndpoint inf mode sinf rng ts
      = Except.ok (analyze_audio inf mode sinf rng ts) ∧
    (analyze_audio inf mode sinf rng ts).mode = mode ∧
    (analyze_audio inf mode sinf rng ts).vibrationData.length = 300 := by
  refine ⟨?_, rfl, rfl, ?_⟩
  · rw [analyze_audio_top.eq_def, if_pos hmode]
  · have hq : mode ≠ "quick" := fun h => hmode (Or.inl h)
    show (generate_vibration_data sinf rng
      (if mode = "quick" then 100 else 300)).length = 300
    rw [if_neg hq, generate_vibration_data_length]

/-- C6 witness instance at the invalid mode `"fast"`. -/
theorem mode_validation_split_witness :
    ¬ ("fast" = "quick" ∨ "fast" = "deep") ∧
    analyze_audio_top "fast" "a.webm" 10 (Except.ok ([], 1))
      = Except.error 400 :=
  ⟨by decide,
   (mode_validation_split "fast" (by decide) "a.webm" 10 (Except.ok ([], 1))
     (Except.error "x") sinf0 rng0 "t").1⟩

/-- C6 counterexample: a request with mode `"fast"` is not rejected by the
backend endpoint — the full pipeline runs (the knocking fault is detected
and reported) and a successful response echoing mode `"fast"` with 300
vibration points is returned, so no client error precedes decoding or
inference. -/
theorem mode_fast_counterexample :
    analyzeEndpoint (runInferenceDecision preds61) "fast" sinf0 rng0 "t"
      = Except.ok (analyzeScores preds61 "fast" sinf0 rng0 "t") ∧
    (analyzeScores preds61 "fast" sinf0 rng0 "t").mode = "fast" ∧
    (analyzeScores preds61 "fast" sinf0 rng0 "t").detectedClass = "knocking" ∧
    (analyzeScores preds61 "fast" sinf0 rng0 "t").vibrationData.length = 300 := by
  have hl : ISSUE_MAP.lookup "knocking" =
      some ⟨"high", "Ruang Bakar", "Knocking terdeteksi",
        "Gunakan BBM oktan lebih tinggi dan cek timing pengapian"⟩ := by decide
  refine ⟨rfl, rfl, ?_, ?_⟩
  · norm_num [analyzeScores, analyze_audio, runInferenceDecision, argmax,
      argmaxAux, normClip, clipScores, preds61, min_def, max_def, CLASSES, hl,
      VALID_CONFIDENCE_THRESHOLD]
  · rw [analyzeScores]
    show (generate_vibration_data sinf0 rng0
      (if "fast" = "quick" then 100 else 300)).length = 300
    rw [if_neg (by decide), generate_vibration_data_length]

/-- C2 witness instances: knocking at confidence 0.61 is reported with its
static issue, knocking at 0.59 is gated to `"normal"` with no issues. -/
theorem confidence_gate_spec_witness :
    preds61.length = 9 ∧ preds59.length = 9 ∧
    (analyzeScores preds61 "quick" sinf0 rng0 "t").detectedClass
      = "knocking" ∧
    (analyzeScores preds61 "quick" sinf0 rng0 "t").issues =
      [⟨⟨"high", "Ruang Bakar", "Knocking terdeteksi",
         "Gunakan BBM oktan lebih tinggi dan cek timing pengapian"⟩,
        "knocking"⟩] ∧
    (analyzeScores preds59 "quick" sinf0 rng0 "t").detectedClass
      = "normal" ∧
    (analyzeScores preds59 "quick" sinf0 rng0 "t").issues = [] := by
  have h61 := confidence_gate_spec preds61 "quick" sinf0 rng0 "t" rfl
  have h59 := confidence_gate_spec preds59 "quick" sinf0 rng0 "t" rfl
  have hl : ISSUE_MAP.lookup "knocking" =
      some ⟨"high", "Ruang Bakar", "Knocking terdeteksi",
        "Gunakan BBM oktan lebih tinggi dan cek timing pengapian"⟩ := by decide
  refine ⟨rfl, rfl, ?_, ?_, ?_, ?_⟩ <;>
    norm_num [analyzeScores, analyze_audio, runInferenceDecision, argmax,
      argmaxAux, normClip, clipScores, preds61, preds59, min_def, max_def,
      CLASSES, hl, VALID_CONFIDENCE_THRESHOLD]

/-- C9 witness instance: `aki_tekor` at confidence 0.92 is overridden to
`"normal"` with no issues and health at least 90. -/
theorem unmapped_classes_normal_witness :
    predsAki.length = 9 ∧
    CLASSES.getD (argmax (normClip predsAki)) "" = "aki_tekor" ∧
    (analyzeScores predsAki "quick" sinf0 rng0 "t").detectedClass
      = "normal" ∧
    (analyzeScores predsAki "quick" sinf0 rng0 "t").issues = [] ∧
    90 ≤ (analyzeScores predsAki "quick" sinf0 rng0 "t").overallHealth := by
  have hcls : CLASSES.getD (argmax (normClip predsAki)) "" = "aki_tekor" := by
    have hnc : normClip predsAki = predsAki := by
      norm_num [normClip, clipScores, predsAki, min_def, max_def]
    rw [hnc, show argmax predsAki = 6 by
      norm_num [argmax, argmaxAux, predsAki]]
    rfl
  have h := unmapped_classes_normal predsAki "quick" sinf0 rng0 "t" rfl
    (Or.inl hcls)
  exact ⟨rfl, hcls, h.2.2.1, h.2.2.2.1, h.2.2.2.2⟩

end ECU
